import Mathlib

/-!
Shallow embedding of the `takeable` Rust crate (`src/lib.rs` and
`src/unsafe_primitives.rs`).

The crate provides a wrapper type `Takeable<T>` around an `Option<T>` that is
`Some` during normal usage, together with operations `new`, `into_inner`,
`borrow`, `borrow_result`, `take`, `is_usable`, the `AsRef`/`AsMut`/`Deref`/
`DerefMut`/`From` trait implementations, and a derived `Default` instance.

Panics are modelled with `Except`: an operation that may panic returns an
`Except` value whose error carries the panic message for usage errors
(`expect(PANIC_MESSAGE)` in the source), or the propagated failure of a
caller-supplied closure. A closure passed to `borrow`/`borrow_result` may
terminate abnormally; this is modelled by letting the closure return
`Except E _`, and the container propagates such an error as a `callback`
panic. Mutating operations return the resulting container state explicitly.
-/

/-- The `Takeable<T>` struct from `lib.rs`: a wrapper around an `Option<T>`
that should always be `Some(value)` during normal usage, unless the closure
given to `borrow_result` panics or the value is taken with `take`. -/
structure Takeable (T : Type) where
  value : Option T

namespace Takeable

/-- Abnormal termination of a container operation: either a usage panic
raised by the container itself via `expect` (carrying the panic message), or
the propagated abnormal termination of a caller-supplied closure. -/
inductive Panic (E : Type) where
  | usage (msg : String)
  | callback (e : E)

/-- Message to print when panicking because the `Takeable<T>` has been
invalidated (the `PANIC_MESSAGE` constant in `lib.rs`). -/
def PANIC_MESSAGE : String := "the value has already been removed from the Takeable"

/-- `Takeable::new`: constructs a new `Takeable<T>` value,
`Takeable { value: Some(value) }`. -/
def new {T : Type} (value : T) : Takeable T :=
  { value := some value }

/-- `Takeable::into_inner`: takes ownership of the inner value,
`self.value.expect(PANIC_MESSAGE)`; panics with `PANIC_MESSAGE` when the
container has been invalidated. -/
def into_inner {T : Type} (t : Takeable T) : Except String T :=
  match t.value with
  | some v => Except.ok v
  | none => Except.error PANIC_MESSAGE

/-- `Takeable::borrow_result`: `self.value.take()` removes the value (leaving
the slot empty) and `expect(PANIC_MESSAGE)` panics when there was none; the
closure is then invoked with the removed value; on normal return of the
pair `(new, result)` the first component is written back
(`self.value = Some(new)`) and the second is returned. When the closure
terminates abnormally (here: returns `Except.error`), the failure propagates
and the slot stays empty. -/
def borrow_result {T E R : Type} (t : Takeable T) (f : T → Except E (T × R)) :
    Except (Panic E) R × Takeable T :=
  match t.value with
  | none => (Except.error (Panic.usage PANIC_MESSAGE), { value := none })
  | some old =>
    match f old with
    | Except.error e => (Except.error (Panic.callback e), { value := none })
    | Except.ok (newVal, result) => (Except.ok result, { value := some newVal })

/-- `Takeable::borrow`: updates the inner value using the provided closure,
defined as `self.borrow_result(|v| (f(v), ()))`. When `f v` terminates
abnormally the pair is never built, so the wrapping closure propagates the
failure unchanged. -/
def borrow {T E : Type} (t : Takeable T) (f : T → Except E T) :
    Except (Panic E) Unit × Takeable T :=
  borrow_result t (fun v =>
    match f v with
    | Except.error e => Except.error e
    | Except.ok x => Except.ok (x, ()))

/-- `Takeable::take`: moves out the inner value,
`self.value.take().expect(PANIC_MESSAGE)`; `Option::take` leaves the slot
empty unconditionally, and `expect` panics with `PANIC_MESSAGE` when the
container was already invalidated. -/
def take {T : Type} (t : Takeable T) : Except String T × Takeable T :=
  match t.value with
  | some v => (Except.ok v, { value := none })
  | none => (Except.error PANIC_MESSAGE, { value := none })

/-- `Takeable::is_usable`: `self.value.is_some()`; total, never panics. -/
def is_usable {T : Type} (t : Takeable T) : Bool :=
  t.value.isSome

/-- `AsRef<T> for Takeable<T>`: `self.value.as_ref().expect(PANIC_MESSAGE)`.
The `T` in the `ok` branch stands for the shared reference; access through
`&self` cannot change the slot. -/
def as_ref {T : Type} (t : Takeable T) : Except String T :=
  match t.value with
  | some v => Except.ok v
  | none => Except.error PANIC_MESSAGE

/-- `AsMut<T> for Takeable<T>`: `self.value.as_mut().expect(PANIC_MESSAGE)`.
The `T` in the `ok` branch stands for the mutable reference; when the
container is invalidated no reference is obtained, so no write can occur. -/
def as_mut {T : Type} (t : Takeable T) : Except String T :=
  match t.value with
  | some v => Except.ok v
  | none => Except.error PANIC_MESSAGE

/-- `Deref for Takeable<T>`: `self.as_ref()`. -/
def deref {T : Type} (t : Takeable T) : Except String T :=
  as_ref t

/-- `DerefMut for Takeable<T>`: `self.as_mut()`. -/
def deref_mut {T : Type} (t : Takeable T) : Except String T :=
  as_mut t

/-- `From<T> for Takeable<T>`: `Self::new(value)`. -/
def fromValue {T : Type} (value : T) : Takeable T :=
  new value

/-- The derived `Default` instance (`#[derive(.., Default)]` on the struct in
`lib.rs`): every field is defaulted, and `Option::<T>::default()` is `None`,
so the derived constructor produces `Takeable { value: None }`. -/
def derivedDefault {T : Type} : Takeable T :=
  { value := none }

end Takeable

namespace UncheckedPrimitives

/-- Outcome of the undefined-behavior branch of an unchecked primitive from
`unsafe_primitives.rs`: reached only when the stated precondition of the
primitive is violated. -/
inductive UB where
  | ub

/-- The `unwrap_some` function from `unsafe_primitives.rs`:
`value.unchecked_unwrap()`, whose error branch (undefined behavior) is
reached exactly when the option is `None`. -/
def unwrap_some {T : Type} (value : Option T) : Except UB T :=
  match value with
  | some v => Except.ok v
  | none => Except.error UB.ub

/-- The `write_none` function from `unsafe_primitives.rs`: asserts that the
slot is `None` (`loc.as_mut().unchecked_unwrap_none()`, undefined behavior
when it is `Some`), then stores `*loc = Some(value)`. -/
def write_none {T : Type} (loc : Option T) (value : T) : Except UB (Option T) :=
  match loc with
  | some _ => Except.error UB.ub
  | none => Except.ok (some value)

end UncheckedPrimitives

/-- One public operation on a `Takeable` container, used to reason about
arbitrary operation sequences. -/
inductive TakeableOp (T E R : Type) where
  | opBorrow (g : T → Except E T)
  | opBorrowResult (f : T → Except E (T × R))
  | opTake
  | opAsRef
  | opAsMut
  | opIsUsable

/-- Container state after one operation (results discarded; `as_ref`,
`as_mut` and `is_usable` access the container by reference and cannot change
the slot). -/
def applyOp {T E R : Type} (op : TakeableOp T E R) (t : Takeable T) : Takeable T :=
  match op with
  | TakeableOp.opBorrow g => (Takeable.borrow t g).2
  | TakeableOp.opBorrowResult f => (Takeable.borrow_result t f).2
  | TakeableOp.opTake => (Takeable.take t).2
  | TakeableOp.opAsRef => t
  | TakeableOp.opAsMut => t
  | TakeableOp.opIsUsable => t

/-- Container state after a sequence of operations. -/
def applyOps {T E R : Type} (ops : List (TakeableOp T E R)) (t : Takeable T) :
    Takeable T :=
  match ops with
  | [] => t
  | op :: rest => applyOps rest (applyOp op t)

/-- The spec's definition of `borrow`: exactly
`borrow_result(v -> (f(v), unit))`, written with `Except.map`. Used to
compare against the source's `Takeable.borrow`. -/
def borrowPerSpec {T E : Type} (t : Takeable T) (f : T → Except E T) :
    Except (Takeable.Panic E) Unit × Takeable T :=
  Takeable.borrow_result t (fun v => (f v).map (fun x => (x, ())))

/-- C1: a container holding `v` subjected to `borrow` with a pure
transformation `f` returns normally, stays usable and holds `f v`; a second
`borrow` with `g` leaves it holding `g (f v)`. -/
theorem c1_borrow_pure_roundtrip {T E : Type} (v : T) (f g : T → T) :
    Takeable.borrow (Takeable.new v) (fun x => (Except.ok (f x) : Except E T)) =
      (Except.ok (), Takeable.new (f v)) ∧
    Takeable.is_usable
      (Takeable.borrow (Takeable.new v)
        (fun x => (Except.ok (f x) : Except E T))).2 = true ∧
    Takeable.borrow
      (Takeable.borrow (Takeable.new v)
        (fun x => (Except.ok (f x) : Except E T))).2
      (fun x => (Except.ok (g x) : Except E T)) =
      (Except.ok (), Takeable.new (g (f v))) :=
  ⟨rfl, rfl, rfl⟩

/-- C2: when the closure passed to `borrow_result` (or `borrow`) terminates
abnormally at the held value, the failure propagates to the caller
unsuppressed as a `callback` panic carrying the original error, the slot is
left empty (the value was removed before the closure ran and is not restored
on the error path), and the container is unusable afterwards. -/
theorem c2_callback_failure_invalidates {T E R : Type} (v : T)
    (f : T → Except E (T × R)) (g : T → Except E T) (e : E)
    (hf : f v = Except.error e) (hg : g v = Except.error e) :
    Takeable.borrow_result (Takeable.new v) f =
      (Except.error (Takeable.Panic.callback e), { value := none }) ∧
    Takeable.is_usable (Takeable.borrow_result (Takeable.new v) f).2 = false ∧
    Takeable.borrow (Takeable.new v) g =
      (Except.error (Takeable.Panic.callback e), { value := none }) ∧
    Takeable.is_usable (Takeable.borrow (Takeable.new v) g).2 = false := by
  simp [Takeable.borrow, Takeable.borrow_result, Takeable.new,
    Takeable.is_usable, hf, hg]

/-- Witness for C2 at `v = 0` with closures failing with the error
`"boom"`. -/
theorem c2_witness :
    ((fun _ : Nat => (Except.error "boom" : Except String (Nat × Nat))) 0 =
        Except.error "boom") ∧
    Takeable.borrow_result (Takeable.new 0)
        (fun _ : Nat => (Except.error "boom" : Except String (Nat × Nat))) =
      (Except.error (Takeable.Panic.callback "boom"), { value := none }) :=
  ⟨rfl, (c2_callback_failure_invalidates 0
      (fun _ : Nat => (Except.error "boom" : Except String (Nat × Nat)))
      (fun _ : Nat => (Except.error "boom" : Except String Nat))
      "boom" rfl rfl).1⟩

/-- C3 fails as stated: the derived default constructor is a public
construction path, yet the container it yields has `is_usable` equal to
`false` (concretely at `T = Nat`). -/
theorem c3_counterexample :
    ¬ Takeable.is_usable (Takeable.derivedDefault : Takeable Nat) = true := by
  decide

/-- C3 (amended): containers from `new` and from the `From` conversion are
usable immediately after construction, and usability is preserved by every
successful `borrow` and `borrow_result` call. -/
theorem c3_construction_and_success_usable {T E R : Type} (v : T)
    (t : Takeable T) (f : T → Except E (T × R)) (g : T → Except E T) (r : R) :
    Takeable.is_usable (Takeable.new v) = true ∧
    Takeable.is_usable (Takeable.fromValue v) = true ∧
    ((Takeable.borrow t g).1 = Except.ok () →
      Takeable.is_usable (Takeable.borrow t g).2 = true) ∧
    ((Takeable.borrow_result t f).1 = Except.ok r →
      Takeable.is_usable (Takeable.borrow_result t f).2 = true) := by
  refine ⟨rfl, rfl, ?_, ?_⟩
  · intro h
    obtain ⟨tv⟩ := t
    cases tv with
    | none => simp [Takeable.borrow, Takeable.borrow_result] at h
    | some w =>
      cases hg : g w with
      | error e => simp [Takeable.borrow, Takeable.borrow_result, hg] at h
      | ok x =>
        simp [Takeable.borrow, Takeable.borrow_result, Takeable.is_usable, hg]
  · intro h
    obtain ⟨tv⟩ := t
    cases tv with
    | none => simp [Takeable.borrow_result] at h
    | some w =>
      cases hf : f w with
      | error e => simp [Takeable.borrow_result, hf] at h
      | ok p => simp [Takeable.borrow_result, Takeable.is_usable, hf]

/-- Witness for C3 at a successful `borrow` on a container holding `5`. -/
theorem c3_witness :
    Takeable.is_usable
      (Takeable.borrow (Takeable.new 5)
        (fun x : Nat => (Except.ok (x + 1) : Except Unit Nat))).2 = true :=
  (c3_construction_and_success_usable 5 (Takeable.new 5)
      (fun x : Nat => (Except.ok (x + 1, x) : Except Unit (Nat × Nat)))
      (fun x : Nat => (Except.ok (x + 1) : Except Unit Nat)) 0).2.2.1 rfl

/-- C4: once `is_usable` is `false`, shared reference access, mutable
reference access, dereference, `borrow`, `borrow_result`, `take` and
`into_inner` all fail with the usage panic carrying `PANIC_MESSAGE`;
`is_usable` itself is a total boolean function and never fails. -/
theorem c4_terminal_state_rejection {T E R : Type} (t : Takeable T)
    (f : T → Except E (T × R)) (g : T → Except E T)
    (h : Takeable.is_usable t = false) :
    Takeable.as_ref t = Except.error Takeable.PANIC_MESSAGE ∧
    Takeable.as_mut t = Except.error Takeable.PANIC_MESSAGE ∧
    Takeable.deref t = Except.error Takeable.PANIC_MESSAGE ∧
    Takeable.deref_mut t = Except.error Takeable.PANIC_MESSAGE ∧
    (Takeable.borrow t g).1 =
      Except.error (Takeable.Panic.usage Takeable.PANIC_MESSAGE) ∧
    (Takeable.borrow_result t f).1 =
      Except.error (Takeable.Panic.usage Takeable.PANIC_MESSAGE) ∧
    (Takeable.take t).1 = Except.error Takeable.PANIC_MESSAGE ∧
    Takeable.into_inner t = Except.error Takeable.PANIC_MESSAGE := by
  obtain ⟨tv⟩ := t
  cases tv with
  | none => exact ⟨rfl, rfl, rfl, rfl, rfl, rfl, rfl, rfl⟩
  | some w => simp [Takeable.is_usable] at h

/-- Witness for C4 on the invalidated container over `Nat`. -/
theorem c4_witness :
    Takeable.is_usable ({ value := none } : Takeable Nat) = false ∧
    Takeable.as_ref ({ value := none } : Takeable Nat) =
      Except.error Takeable.PANIC_MESSAGE :=
  ⟨rfl, (c4_terminal_state_rejection ({ value := none } : Takeable Nat)
      (fun x : Nat => (Except.ok (x, x) : Except Unit (Nat × Nat)))
      (fun x : Nat => (Except.ok x : Except Unit Nat)) rfl).1⟩

/-- C5: `borrow_result` with the closure `v ↦ (h v, side v)` leaves the
container holding `h v` and returns exactly `side v`. -/
theorem c5_borrow_result_passthrough {T R E : Type} (v : T) (h : T → T)
    (side : T → R) :
    Takeable.borrow_result (Takeable.new v)
        (fun x => (Except.ok (h x, side x) : Except E (T × R))) =
      (Except.ok (side v), Takeable.new (h v)) :=
  rfl

/-- C6: `take` on a container holding `v` returns exactly `v` and
unconditionally invalidates the container; afterwards `is_usable` is `false`
and reference access fails with the usage panic; `take` on an
already-invalidated container fails with the same usage panic. -/
theorem c6_take_invalidates {T : Type} (v : T) :
    Takeable.take (Takeable.new v) = (Except.ok v, { value := none }) ∧
    Takeable.is_usable (Takeable.take (Takeable.new v)).2 = false ∧
    Takeable.as_ref (Takeable.take (Takeable.new v)).2 =
      Except.error Takeable.PANIC_MESSAGE ∧
    (Takeable.take ({ value := none } : Takeable T)).1 =
      Except.error Takeable.PANIC_MESSAGE :=
  ⟨rfl, rfl, rfl, rfl⟩

/-- An empty slot stays empty under every single operation. -/
theorem applyOp_none {T E R : Type} (op : TakeableOp T E R) (t : Takeable T)
    (h : t.value = none) : (applyOp op t).value = none := by
  obtain ⟨tv⟩ := t
  cases tv with
  | some w => exact Option.noConfusion h
  | none =>
    cases op with
    | opBorrow g => rfl
    | opBorrowResult f => rfl
    | opTake => rfl
    | opAsRef => rfl
    | opAsMut => rfl
    | opIsUsable => rfl

/-- An empty slot stays empty under every operation sequence. -/
theorem applyOps_none {T E R : Type} (ops : List (TakeableOp T E R))
    (t : Takeable T) (h : t.value = none) : (applyOps ops t).value = none := by
  induction ops generalizing t with
  | nil => exact h
  | cons op rest ih => exact ih (applyOp op t) (applyOp_none op t h)

/-- C7: invalidation is a one-way door: after any sequence of operations
starting from an empty slot the slot is still empty and `is_usable` is still
`false`; each individual operation on an invalidated container fails (or,
for `is_usable`, returns `false`) and leaves the empty state unchanged. -/
theorem c7_invalidation_permanent {T E R : Type}
    (ops : List (TakeableOp T E R)) (t : Takeable T)
    (f : T → Except E (T × R)) (g : T → Except E T)
    (h : t.value = none) :
    (applyOps ops t).value = none ∧
    Takeable.is_usable (applyOps ops t) = false ∧
    Takeable.is_usable t = false ∧
    (Takeable.borrow t g).2 = t ∧
    (Takeable.borrow_result t f).2 = t ∧
    (Takeable.take t).2 = t ∧
    Takeable.as_ref t = Except.error Takeable.PANIC_MESSAGE ∧
    Takeable.as_mut t = Except.error Takeable.PANIC_MESSAGE := by
  obtain ⟨tv⟩ := t
  cases tv with
  | some w => exact Option.noConfusion h
  | none =>
    have hnone := applyOps_none ops ({ value := none } : Takeable T) rfl
    refine ⟨hnone, ?_, rfl, rfl, rfl, rfl, rfl, rfl⟩
    simp [Takeable.is_usable, hnone]

/-- Witness for C7 on a concrete operation sequence over `Nat`. -/
theorem c7_witness :
    (({ value := none } : Takeable Nat).value = none) ∧
    (applyOps
        ([TakeableOp.opTake,
          TakeableOp.opBorrow (fun x : Nat => (Except.ok x : Except Unit Nat))] :
          List (TakeableOp Nat Unit Nat))
        ({ value := none } : Takeable Nat)).value = none :=
  ⟨rfl, (c7_invalidation_permanent
      ([TakeableOp.opTake,
        TakeableOp.opBorrow (fun x : Nat => (Except.ok x : Except Unit Nat))] :
        List (TakeableOp Nat Unit Nat))
      ({ value := none } : Takeable Nat)
      (fun x : Nat => (Except.ok (x, x) : Except Unit (Nat × Nat)))
      (fun x : Nat => (Except.ok x : Except Unit Nat)) rfl).1⟩

/-- C8: on every container state and for every closure, `borrow f` coincides
with `borrow_result` of the closure pairing `f v` with unit — same result
and same resulting container state, including the failure and invalidation
behavior. -/
theorem c8_borrow_refines_borrow_result {T E : Type} (t : Takeable T)
    (f : T → Except E T) :
    Takeable.borrow t f = borrowPerSpec t f := by
  unfold Takeable.borrow borrowPerSpec
  have hcl : (fun v =>
      match f v with
      | Except.error e => (Except.error e : Except E (T × Unit))
      | Except.ok x => Except.ok (x, ())) =
      fun v => (f v).map (fun x => (x, ())) := by
    funext v
    cases f v with
    | error e => rfl
    | ok x => rfl
  rw [hcl]

/-- C9: the unchecked fast-path primitives agree with the checked contract
under their occupancy preconditions: `unwrap_some` on `some v` returns `v`
without reaching the undefined-behavior branch, and `write_none` on an empty
slot stores `some v` without reaching its undefined-behavior branch. -/
theorem c9_unchecked_matches_checked {T : Type} (v : T) :
    UncheckedPrimitives.unwrap_some (some v) = Except.ok v ∧
    UncheckedPrimitives.write_none (none : Option T) v = Except.ok (some v) :=
  ⟨rfl, rfl⟩

/-- C10: the derived default constructor yields an already-invalidated
container: `is_usable` is `false`, and every accessor fails immediately with
the usage panic carrying `PANIC_MESSAGE`. -/
theorem c10_default_invalidated {T E R : Type} (f : T → Except E (T × R))
    (g : T → Except E T) :
    Takeable.is_usable (Takeable.derivedDefault : Takeable T) = false ∧
    Takeable.as_ref (Takeable.derivedDefault : Takeable T) =
      Except.error Takeable.PANIC_MESSAGE ∧
    Takeable.as_mut (Takeable.derivedDefault : Takeable T) =
      Except.error Takeable.PANIC_MESSAGE ∧
    Takeable.into_inner (Takeable.derivedDefault : Takeable T) =
      Except.error Takeable.PANIC_MESSAGE ∧
    (Takeable.take (Takeable.derivedDefault : Takeable T)).1 =
      Except.error Takeable.PANIC_MESSAGE ∧
    (Takeable.borrow (Takeable.derivedDefault : Takeable T) g).1 =
      Except.error (Takeable.Panic.usage Takeable.PANIC_MESSAGE) ∧
    (Takeable.borrow_result (Takeable.derivedDefault : Takeable T) f).1 =
      Except.error (Takeable.Panic.usage Takeable.PANIC_MESSAGE) :=
  ⟨rfl, rfl, rfl, rfl, rfl, rfl, rfl⟩
